import Mathlib

/-!
Shallow embedding of the two analysis scripts `sound_MESA.py` (PSD pipeline)
and `sound_coherence.py` (coherence pipeline).  Sample data and frequencies
are modelled as rationals; the external collaborators (audio decoder,
spectral solver, loudness meter, coherence estimator) are parameters of the
run functions.  Machine floats are modelled by exact arithmetic.
-/

namespace SoundMESA

/-- Decoded audio: per-channel sample sequences plus the sample rate,
channel-major (`data[:, k]` of the scripts is `channels.getD k []`). -/
structure AudioFrame where
  channels : List (List ℚ)
  rate : ℕ
deriving DecidableEq

/-- Number of frames (samples per channel), `data.shape[0]`. -/
def AudioFrame.frameCount (a : AudioFrame) : ℕ := (a.channels.headD []).length

/-- Well-formedness of a decoded file: at least one channel, positive sample
rate, all channels of equal length. -/
def AudioFrame.WF (a : AudioFrame) : Prop :=
  0 < a.channels.length ∧ 0 < a.rate ∧ ∀ c ∈ a.channels, c.length = a.frameCount

instance (a : AudioFrame) : Decidable a.WF := by
  unfold AudioFrame.WF; infer_instance

/-- `data[:, i]` : samples of channel `i`. -/
def AudioFrame.channel (a : AudioFrame) (i : ℕ) : List ℚ := a.channels.getD i []

/-- `if rateend == 0: rateend = int(realrate / 2)` — identical lines in both
scripts (sound_MESA.py:60-61, sound_coherence.py:48-49).  `int()` on the
non-negative float `realrate / 2` truncates, i.e. floors. -/
def resolveRateEnd (requested : ℤ) (rate : ℕ) : ℤ :=
  if requested = 0 then (rate : ℤ) / 2 else requested

/-- `2 ^ e ≤ a / b` for naturals `a`, `b` and an integer exponent `e`,
decided in integer arithmetic. -/
def pow2le (e : ℤ) (a b : ℕ) : Bool :=
  if 0 ≤ e then b * 2 ^ e.toNat ≤ a else b ≤ a * 2 ^ (-e).toNat

/-- Number of binary digits, by fuelled structural recursion (the first
argument is the fuel) so that it reduces in the kernel. -/
def bitLenAux : ℕ → ℕ → ℕ
  | 0, _ => 0
  | fuel + 1, n => if n = 0 then 0 else bitLenAux fuel (n / 2) + 1

/-- Number of binary digits of `n`; `n` itself is always enough fuel. -/
def bitLen (n : ℕ) : ℕ := bitLenAux n n

/-- `⌊log₂ n⌋` for `n ≥ 1` (and 0 for `n = 0`). -/
def floorLog2 (n : ℕ) : ℕ := bitLen n - 1

/-- `⌊log₂ (a / b)⌋` for positive naturals, computed from `floorLog2` of
numerator and denominator with an exact correction step. -/
def ilog2n (a b : ℕ) : ℤ :=
  let c : ℤ := (floorLog2 a : ℤ) - (floorLog2 b : ℤ)
  if pow2le (c + 1) a b then c + 1
  else if pow2le c a b then c
  else c - 1

/-- A non-negative IEEE-754 binary64 value, as significand times a power
of two: `value = m · 2 ^ e`.  (The exponent is unbounded here, which is
irrelevant for the magnitudes the scripts produce.) -/
structure F64 where
  m : ℕ
  e : ℤ
deriving DecidableEq

/-- Rational value of a binary64 number. -/
def F64.toRat (x : F64) : ℚ :=
  if 0 ≤ x.e then ((x.m * 2 ^ x.e.toNat : ℕ) : ℚ)
  else (x.m : ℚ) / ((2 ^ (-x.e).toNat : ℕ) : ℚ)

/-- Round the positive rational `a / b` to the nearest binary64 value
(round to nearest, ties to even, 53-bit significand). -/
def roundRatF64 (a b : ℕ) : F64 :=
  let e := ilog2n a b - 52
  let bigN := a * 2 ^ (-e).toNat
  let bigD := b * 2 ^ e.toNat
  let m0 := bigN / bigD
  let r := bigN % bigD
  let m := if bigD < 2 * r then m0 + 1
           else if 2 * r < bigD then m0
           else if m0 % 2 = 0 then m0 else m0 + 1
  ⟨m, e⟩

/-- Double-precision division of naturals, as the scripts' `n / realrate`:
the exact quotient, correctly rounded. -/
def floatDivNat (n r : ℕ) : F64 :=
  if n = 0 then ⟨0, 0⟩ else roundRatF64 n r

/-- Double-precision multiplication of a float by a natural, as the
scripts' `t * realrate`: the exact product, correctly rounded. -/
def floatMulNat (x : F64) (r : ℕ) : F64 :=
  if x.m = 0 ∨ r = 0 then ⟨0, 0⟩
  else roundRatF64 (x.m * r * 2 ^ x.e.toNat) (2 ^ (-x.e).toNat)

/-- Python's `int()` on a non-negative float: truncation toward zero,
i.e. the floor. -/
def truncF64 (x : F64) : ℕ :=
  if 0 ≤ x.e then x.m * 2 ^ x.e.toNat else x.m / 2 ^ (-x.e).toNat

/-- `int(t * realrate)` where `t = frameCount / realrate`, evaluated in
double precision exactly as the scripts do (sound_MESA.py:75,77;
sound_coherence.py:52,61-62).  For most lengths this equals `frameCount`,
but the two float roundings can lose one unit: e.g. 15 frames at 44100 Hz
give `int((15/44100)*44100) = int(14.999999999999998) = 14`. -/
def truncCount (frameCount rate : ℕ) : ℕ :=
  truncF64 (floatMulNat (floatDivNat frameCount rate) rate)

/-- `np.argmax`: index of the first occurrence of the maximum value. -/
def argmax (l : List ℚ) : ℕ :=
  match l.maximum with
  | none => 0
  | some m => l.indexOf m

/-- `np.argmin`: index of the first occurrence of the minimum value. -/
def argmin (l : List ℚ) : ℕ :=
  match l.minimum with
  | none => 0
  | some m => l.indexOf m

/-- `np.allclose(xs, 1.0)` with numpy's default tolerances
`rtol = 1e-5`, `atol = 1e-8`: every element `v` satisfies
`|v - 1.0| ≤ atol + rtol * |1.0|`. -/
def allcloseOne (l : List ℚ) : Bool :=
  l.all (fun v => |v - 1| ≤ 1 / 10 ^ 8 + 1 / 10 ^ 5 * |(1 : ℚ)|)

/-- `np.linspace(start, stop, num)` (endpoint=True): `num` points
`start + i * (stop - start) / (num - 1)`. -/
def linspace (start stop : ℚ) (num : ℕ) : List ℚ :=
  (List.range num).map
    (fun (i : ℕ) => start + (stop - start) * (i : ℚ) / ((num : ℚ) - 1))

/-- `N_points = 1000000` (sound_MESA.py:86). -/
def nPoints : ℕ := 1000000

/-- Output of the external coherence estimator `scipy.signal.coherence`:
a frequency grid and the coherence values, positionally aligned. -/
structure CohEstimate where
  freqs : List ℚ
  values : List ℚ
deriving DecidableEq

/-- Observable trace of one run of `sound_coherence.py`. -/
structure CohTrace where
  exitCode : ℕ
  stderr : List String
  stdout : List String
  bandEnd : Option ℤ
  estimatorInvoked : Bool
  filtered : List (ℚ × ℚ)
  isIdentical : Bool
  title : Option String
  chartShown : Bool
  minReport : Option (ℚ × ℚ)
  maxReport : Option (ℚ × ℚ)
deriving DecidableEq

/-- Lines 61-65 of sound_coherence.py: extract the first two channels,
truncated to `int(t * realrate)` samples, and hand them to the external
estimator `scipy.signal.coherence`. -/
def cohEstimateOf (window : String) (nperseg : ℤ) (a : AudioFrame)
    (est : List ℚ → List ℚ → ℕ → ℤ → String → CohEstimate) : CohEstimate :=
  let cut := truncCount a.frameCount a.rate
  est ((a.channel 0).take cut) ((a.channel 1).take cut) a.rate nperseg window

/-- Lines 68-70 of sound_coherence.py: keep the (frequency, coherence)
pairs with `ratestart <= f <= rateend`, inclusive at both ends. -/
def cohFilterOf (window : String) (nperseg ratestart rateend : ℤ)
    (a : AudioFrame)
    (est : List ℚ → List ℚ → ℕ → ℤ → String → CohEstimate) : List (ℚ × ℚ) :=
  let e := cohEstimateOf window nperseg a est
  (e.freqs.zip e.values).filter
    (fun p => (ratestart : ℚ) ≤ p.1 ∧ p.1 ≤ ((resolveRateEnd rateend a.rate : ℤ) : ℚ))

/-- One run of `sound_coherence.py` after argument parsing, with the audio
decoder's output `a` and the external coherence estimator `est`
(channel₁, channel₂, fs, nperseg, window ↦ (f, Cxy)) as parameters.
Transcribed line by line from sound_coherence.py:35-102. -/
def coherenceRun (fname window : String) (nperseg ratestart rateend : ℤ)
    (a : AudioFrame)
    (est : List ℚ → List ℚ → ℕ → ℤ → String → CohEstimate) : CohTrace :=
  -- lines 35-37: nperseg check, message printed to stdout, exit(1)
  if nperseg < 8 then
    { exitCode := 1, stderr := [], stdout := ["nperseg should be >= 8"],
      bandEnd := none, estimatorInvoked := false, filtered := [],
      isIdentical := false, title := none, chartShown := false,
      minReport := none, maxReport := none }
  else
    -- lines 48-49: band end resolution
    let rEnd := resolveRateEnd rateend a.rate
    -- lines 55-58: channel-count check, message on stderr, exit(1)
    if a.channels.length < 2 then
      { exitCode := 1,
        stderr := ["Error: Audio file must have at least two channels."],
        stdout := [], bandEnd := some rEnd, estimatorInvoked := false,
        filtered := [], isIdentical := false, title := none,
        chartShown := false, minReport := none, maxReport := none }
    else
      -- lines 61-65: channel extraction and the heavy computation
      let e := cohEstimateOf window nperseg a est
      -- lines 68-70: band mask, inclusive at both ends
      let filt := cohFilterOf window nperseg ratestart rateend a est
      -- lines 73-74: np.argmin / np.argmax raise on an empty array:
      -- uncaught ValueError, traceback on stderr, process exit code 1
      if filt = [] then
        { exitCode := 1,
          stderr := ["ValueError: attempt to get argmin of an empty sequence"],
          stdout := [], bandEnd := some rEnd, estimatorInvoked := true,
          filtered := filt, isIdentical := false, title := none,
          chartShown := false, minReport := none, maxReport := none }
      else
        let vals := filt.map Prod.snd
        let miIdx := argmin vals
        let maIdx := argmax vals
        let minRep := ((filt.getD miIdx (0, 0)).snd, (filt.getD miIdx (0, 0)).fst)
        let maxRep := ((filt.getD maIdx (0, 0)).snd, (filt.getD maIdx (0, 0)).fst)
        -- lines 81-84: identical-channel flag over the unfiltered values
        let ident := allcloseOne e.values
        let title := if ident then "Channels identical in " ++ fname
                     else "Coherence for " ++ fname
        { exitCode := 0, stderr := [],
          stdout := if ident then ["The two channels are identical."] else [],
          bandEnd := some rEnd, estimatorInvoked := true, filtered := filt,
          isIdentical := ident, title := some title, chartShown := true,
          minReport := some minRep, maxReport := some maxRep }

/-- Output of the external BS.1770 loudness meter
(`pyln.Meter.integrated_loudness`): a finite LUFS value, or `-inf`
for e.g. a silent clip. -/
inductive MeterValue
  | finite (x : ℚ)
  | negInf
deriving DecidableEq

/-- Model order of the MESA solver call (sound_MESA.py:82-83):
`m = int(2 * len(data) / (2 * np.log(len(data))))`, under real semantics.
For `n = 0` this matches the program (`0 / -inf = -0.0`, `int` gives 0;
here `Real.log 0 = 0` and `0 / 0 = 0`).  For `n = 1` the program's
expression raises (`np.log(1) = 0`, the float division yields `inf`, and
`int(inf)` raises `OverflowError`); that error path is modelled explicitly
by the `n = 1` branch of `psdRun`, which never uses this value — Lean's
`x / 0 = 0` convention makes `psdOrder 1 = 0`, a junk value on a path the
run model does not take. -/
noncomputable def psdOrder (n : ℕ) : ℤ :=
  ⌊(2 * (n : ℝ)) / (2 * Real.log (n : ℝ))⌋

/-- Lines 64-72 of sound_MESA.py: the loudness stage.  When a target is
supplied the external transform is applied unconditionally; otherwise the
decoded frame is passed through. -/
def normalizedOf (target : Option ℚ) (a : AudioFrame)
    (meter : AudioFrame → MeterValue)
    (nf : AudioFrame → MeterValue → ℚ → AudioFrame) : AudioFrame :=
  match target with
  | none => a
  | some tgt => nf a (meter a) tgt

/-- Lines 75-77 of sound_MESA.py: the samples handed to the spectral
analysis — channel 0 of the (possibly normalized) frame, truncated to
`int(t * realrate)` samples. -/
def dataMESAOf (target : Option ℚ) (a : AudioFrame)
    (meter : AudioFrame → MeterValue)
    (nf : AudioFrame → MeterValue → ℚ → AudioFrame) : List ℚ :=
  let normalized := normalizedOf target a meter nf
  (normalized.channel 0).take (truncCount normalized.frameCount a.rate)

/-- Observable trace of one run of `sound_MESA.py`. -/
structure PsdTrace where
  exitCode : ℕ
  stderr : List String
  bandEnd : ℤ
  transformApplied : Bool
  normalized : AudioFrame
  dataMESA : List ℚ
  solverInvoked : Bool
  solveOrder : ℤ
  grid : List ℚ
  psdReal : List ℚ
  minIdx : ℕ
  maxIdx : ℕ
  chartShown : Bool

/-- Lines 86-87 of sound_MESA.py:
`f_PSD = np.linspace(ratestart, rateend, N_points)` over the resolved
band. -/
def gridOf (ratestart rateend : ℤ) (rate : ℕ) : List ℚ :=
  linspace (ratestart : ℚ) ((resolveRateEnd rateend rate : ℤ) : ℚ) nPoints

/-- Lines 88-91 of sound_MESA.py: the spectrum evaluated on the dense grid
with `dt = 1/realrate`, keeping the real part of each complex value. -/
def psdRealOf (ratestart rateend : ℤ) (rate : ℕ)
    (sp : ℚ → ℚ → ℚ × ℚ) : List ℚ :=
  (gridOf ratestart rateend rate).map (fun fr => (sp (1 / (rate : ℚ)) fr).1)

/-- One run of `sound_MESA.py` after argument parsing, with the decoded
audio `a`, the external loudness meter `meter`, the external normalization
transform `nf` (samples, measured loudness, target ↦ samples) and the
fitted model's spectrum `sp` (dt, frequency ↦ complex value as a
(re, im) pair) as parameters.  Transcribed from sound_MESA.py:59-112.

Control flow: band resolution (60-61), the loudness stage (64-72) and
channel selection (75-77) always run.  At lines 82-83 the order expression
`int(2*N/(2*np.log(N)))` raises for `N = 1` (`np.log(1) = 0`, the float
division yields `inf`, `int(inf)` raises `OverflowError`): an uncaught
exception, traceback on standard error, process exit code 1, no solver
call, no chart.  For every other `N` the run proceeds to the solver, the
spectrum sampling (86-88, real part kept at 91/99-107) and the chart.
The trace's `grid`/`psdReal`/`minIdx`/`maxIdx`/`solveOrder` fields record
the values those expressions denote; on the `N = 1` path — where the
program stops before evaluating them — the actual outcome is recorded by
`exitCode`, `stderr`, `solverInvoked` and `chartShown`. -/
noncomputable def psdRun (ratestart rateend : ℤ) (target : Option ℚ)
    (a : AudioFrame) (meter : AudioFrame → MeterValue)
    (nf : AudioFrame → MeterValue → ℚ → AudioFrame)
    (sp : ℚ → ℚ → ℚ × ℚ) : PsdTrace :=
  -- lines 60-61: band end resolution
  let rEnd := resolveRateEnd rateend a.rate
  -- lines 64-72: optional loudness normalization, applied unconditionally
  -- whenever a target is supplied
  let normalized := normalizedOf target a meter nf
  -- lines 75, 77: channel 0, truncated to int(t*realrate)
  let dataMESA := dataMESAOf target a meter nf
  -- lines 82-83: the model order handed to the solver
  let order := psdOrder dataMESA.length
  -- lines 86-88: dense frequency grid and spectrum evaluation
  let grid := gridOf ratestart rateend a.rate
  -- line 91 / 99-100: keep the real part only
  let psd := psdRealOf ratestart rateend a.rate sp
  if dataMESA.length = 1 then
    -- lines 82-83 crash for N = 1: int(inf) raises OverflowError
    { exitCode := 1,
      stderr := ["OverflowError: cannot convert float infinity to integer"],
      bandEnd := rEnd, transformApplied := target.isSome,
      normalized := normalized, dataMESA := dataMESA,
      solverInvoked := false, solveOrder := order,
      grid := grid, psdReal := psd,
      minIdx := argmin psd, maxIdx := argmax psd, chartShown := false }
  else
    { exitCode := 0, stderr := [], bandEnd := rEnd,
      transformApplied := target.isSome, normalized := normalized,
      dataMESA := dataMESA, solverInvoked := true, solveOrder := order,
      grid := grid, psdReal := psd,
      minIdx := argmin psd, maxIdx := argmax psd, chartShown := true }

/-! ### Concrete fixtures used by witness theorems -/

/-- A two-channel, one-frame test file. -/
def stereoFrame : AudioFrame := ⟨[[1], [2]], 44100⟩

/-- A one-channel (mono) test file. -/
def monoFrame : AudioFrame := ⟨[[1, 2]], 44100⟩

/-- A constant external coherence estimator: one grid point at 0 Hz with
coherence 1. -/
def constEst : List ℚ → List ℚ → ℕ → ℤ → String → CohEstimate :=
  fun _ _ _ _ _ => ⟨[0], [1]⟩

/-- An external normalization transform that returns its input unchanged. -/
def idNf : AudioFrame → MeterValue → ℚ → AudioFrame := fun x _ _ => x

/-- An external loudness meter reporting `-inf` (silent clip). -/
def negInfMeter : AudioFrame → MeterValue := fun _ => MeterValue.negInf

/-- A constant external spectrum. -/
def zeroSp : ℚ → ℚ → ℚ × ℚ := fun _ _ => (0, 0)

/-- A 15-sample mono file at 44100 Hz: a length whose
`int((15/44100)*44100)` slice bound evaluates to 14 in doubles. -/
def frame15 : AudioFrame :=
  ⟨[[1, 2, 3, 4, 5, 6, 7, 8, 9, 10, 11, 12, 13, 14, 15]], 44100⟩

/-- A 1-sample mono file at 44100 Hz: the PSD pipeline's order expression
crashes for this length. -/
def mono1 : AudioFrame := ⟨[[1]], 44100⟩

/-! ### Basic lemmas about the embedding -/

lemma psdRun_dataMESA (rs rend : ℤ) (target : Option ℚ) (a : AudioFrame)
    (meter : AudioFrame → MeterValue)
    (nf : AudioFrame → MeterValue → ℚ → AudioFrame)
    (sp : ℚ → ℚ → ℚ × ℚ) :
    (psdRun rs rend target a meter nf sp).dataMESA
      = dataMESAOf target a meter nf := by
  unfold psdRun
  dsimp only
  split <;> rfl

lemma psdRun_bandEnd (rs rend : ℤ) (target : Option ℚ) (a : AudioFrame)
    (meter : AudioFrame → MeterValue)
    (nf : AudioFrame → MeterValue → ℚ → AudioFrame)
    (sp : ℚ → ℚ → ℚ × ℚ) :
    (psdRun rs rend target a meter nf sp).bandEnd
      = resolveRateEnd rend a.rate := by
  unfold psdRun
  dsimp only
  split <;> rfl

lemma psdRun_transformApplied (rs rend : ℤ) (target : Option ℚ)
    (a : AudioFrame) (meter : AudioFrame → MeterValue)
    (nf : AudioFrame → MeterValue → ℚ → AudioFrame)
    (sp : ℚ → ℚ → ℚ × ℚ) :
    (psdRun rs rend target a meter nf sp).transformApplied
      = target.isSome := by
  unfold psdRun
  dsimp only
  split <;> rfl

lemma psdRun_normalized (rs rend : ℤ) (target : Option ℚ) (a : AudioFrame)
    (meter : AudioFrame → MeterValue)
    (nf : AudioFrame → MeterValue → ℚ → AudioFrame)
    (sp : ℚ → ℚ → ℚ × ℚ) :
    (psdRun rs rend target a meter nf sp).normalized
      = normalizedOf target a meter nf := by
  unfold psdRun
  dsimp only
  split <;> rfl

lemma psdRun_solveOrder (rs rend : ℤ) (target : Option ℚ) (a : AudioFrame)
    (meter : AudioFrame → MeterValue)
    (nf : AudioFrame → MeterValue → ℚ → AudioFrame)
    (sp : ℚ → ℚ → ℚ × ℚ) :
    (psdRun rs rend target a meter nf sp).solveOrder
      = psdOrder (dataMESAOf target a meter nf).length := by
  unfold psdRun
  dsimp only
  split <;> rfl

lemma psdRun_grid (rs rend : ℤ) (target : Option ℚ) (a : AudioFrame)
    (meter : AudioFrame → MeterValue)
    (nf : AudioFrame → MeterValue → ℚ → AudioFrame)
    (sp : ℚ → ℚ → ℚ × ℚ) :
    (psdRun rs rend target a meter nf sp).grid
      = gridOf rs rend a.rate := by
  unfold psdRun
  dsimp only
  rw [apply_ite PsdTrace.grid]
  dsimp only
  rw [ite_self]

lemma psdRun_psdReal (rs rend : ℤ) (target : Option ℚ) (a : AudioFrame)
    (meter : AudioFrame → MeterValue)
    (nf : AudioFrame → MeterValue → ℚ → AudioFrame)
    (sp : ℚ → ℚ → ℚ × ℚ) :
    (psdRun rs rend target a meter nf sp).psdReal
      = psdRealOf rs rend a.rate sp := by
  unfold psdRun
  dsimp only
  rw [apply_ite PsdTrace.psdReal]
  dsimp only
  rw [ite_self]

lemma psdRun_maxIdx (rs rend : ℤ) (target : Option ℚ) (a : AudioFrame)
    (meter : AudioFrame → MeterValue)
    (nf : AudioFrame → MeterValue → ℚ → AudioFrame)
    (sp : ℚ → ℚ → ℚ × ℚ) :
    (psdRun rs rend target a meter nf sp).maxIdx
      = argmax (psdRealOf rs rend a.rate sp) := by
  unfold psdRun
  dsimp only
  rw [apply_ite PsdTrace.maxIdx]
  dsimp only
  rw [ite_self]

lemma psdRun_minIdx (rs rend : ℤ) (target : Option ℚ) (a : AudioFrame)
    (meter : AudioFrame → MeterValue)
    (nf : AudioFrame → MeterValue → ℚ → AudioFrame)
    (sp : ℚ → ℚ → ℚ × ℚ) :
    (psdRun rs rend target a meter nf sp).minIdx
      = argmin (psdRealOf rs rend a.rate sp) := by
  unfold psdRun
  dsimp only
  rw [apply_ite PsdTrace.minIdx]
  dsimp only
  rw [ite_self]

/-- The non-crashing branch of `psdRun`: whenever the analyzed channel does
not have exactly one sample, the run reaches the solver and the chart. -/
lemma psdRun_of_ne_one (rs rend : ℤ) (target : Option ℚ) (a : AudioFrame)
    (meter : AudioFrame → MeterValue)
    (nf : AudioFrame → MeterValue → ℚ → AudioFrame)
    (sp : ℚ → ℚ → ℚ × ℚ)
    (h : (dataMESAOf target a meter nf).length ≠ 1) :
    psdRun rs rend target a meter nf sp =
      { exitCode := 0, stderr := [],
        bandEnd := resolveRateEnd rend a.rate,
        transformApplied := target.isSome,
        normalized := normalizedOf target a meter nf,
        dataMESA := dataMESAOf target a meter nf,
        solverInvoked := true,
        solveOrder := psdOrder (dataMESAOf target a meter nf).length,
        grid := gridOf rs rend a.rate,
        psdReal := psdRealOf rs rend a.rate sp,
        minIdx := argmin (psdRealOf rs rend a.rate sp),
        maxIdx := argmax (psdRealOf rs rend a.rate sp),
        chartShown := true } := by
  unfold psdRun
  dsimp only
  rw [if_neg h]

/-- The crashing branch of `psdRun`: with a 1-sample channel the order
expression raises before the solver is invoked. -/
lemma psdRun_of_len_one (rs rend : ℤ) (target : Option ℚ) (a : AudioFrame)
    (meter : AudioFrame → MeterValue)
    (nf : AudioFrame → MeterValue → ℚ → AudioFrame)
    (sp : ℚ → ℚ → ℚ × ℚ)
    (h : (dataMESAOf target a meter nf).length = 1) :
    (psdRun rs rend target a meter nf sp).exitCode = 1 ∧
    (psdRun rs rend target a meter nf sp).solverInvoked = false ∧
    (psdRun rs rend target a meter nf sp).chartShown = false ∧
    (psdRun rs rend target a meter nf sp).stderr
      = ["OverflowError: cannot convert float infinity to integer"] := by
  unfold psdRun
  dsimp only
  rw [if_pos h]
  exact ⟨rfl, rfl, rfl, rfl⟩

lemma indexOf_le_of_getD {l : List ℚ} {a : ℚ} {j : ℕ} (hj : j < l.length)
    (h : l.getD j 0 = a) : l.indexOf a ≤ j := by
  induction l generalizing j with
  | nil => simp at hj
  | cons x xs ih =>
    cases j with
    | zero =>
      simp only [List.getD_cons_zero] at h
      subst h
      simp [List.indexOf_cons_self]
    | succ j =>
      simp only [List.getD_cons_succ] at h
      by_cases hxa : x = a
      · rw [List.indexOf_cons_eq _ hxa]
        omega
      · rw [List.indexOf_cons_ne _ hxa]
        have := ih (by simpa using hj) h
        omega

/-- `argmax` returns a valid index of a first occurrence of the maximum. -/
lemma argmax_spec (l : List ℚ) (hl : l ≠ []) :
    argmax l < l.length ∧
    (∀ v ∈ l, v ≤ l.getD (argmax l) 0) ∧
    (∀ j, j < l.length → l.getD j 0 = l.getD (argmax l) 0 → argmax l ≤ j) := by
  obtain ⟨m, hm⟩ := WithBot.ne_bot_iff_exists.mp (List.maximum_ne_bot_of_ne_nil hl)
  have harg : argmax l = l.indexOf m := by
    unfold argmax
    rw [← hm]
  have hmem : m ∈ l := List.maximum_mem hm.symm
  have hidx : l.indexOf m < l.length := List.indexOf_lt_length.mpr hmem
  have hval : l.getD (argmax l) 0 = m := by
    rw [harg, List.getD_eq_getElem _ _ hidx, List.getElem_indexOf]
  refine ⟨harg ▸ hidx, ?_, ?_⟩
  · intro v hv
    rw [hval]
    exact List.le_maximum_of_mem hv hm.symm
  · intro j hj hjv
    rw [hval] at hjv
    rw [harg]
    exact indexOf_le_of_getD hj hjv

/-- `argmin` returns a valid index of a first occurrence of the minimum. -/
lemma argmin_spec (l : List ℚ) (hl : l ≠ []) :
    argmin l < l.length ∧
    (∀ v ∈ l, l.getD (argmin l) 0 ≤ v) ∧
    (∀ j, j < l.length → l.getD j 0 = l.getD (argmin l) 0 → argmin l ≤ j) := by
  obtain ⟨m, hm⟩ := WithTop.ne_top_iff_exists.mp (List.minimum_ne_top_of_ne_nil hl)
  have harg : argmin l = l.indexOf m := by
    unfold argmin
    rw [← hm]
  have hmem : m ∈ l := List.minimum_mem hm.symm
  have hidx : l.indexOf m < l.length := List.indexOf_lt_length.mpr hmem
  have hval : l.getD (argmin l) 0 = m := by
    rw [harg, List.getD_eq_getElem _ _ hidx, List.getElem_indexOf]
  refine ⟨harg ▸ hidx, ?_, ?_⟩
  · intro v hv
    rw [hval]
    exact List.minimum_le_of_mem hv hm.symm
  · intro j hj hjv
    rw [hval] at hjv
    rw [harg]
    exact indexOf_le_of_getD hj hjv

/-- The successful (chart-producing) branch of `coherenceRun`. -/
lemma coherenceRun_success (fname window : String)
    (nperseg ratestart rateend : ℤ) (a : AudioFrame)
    (est : List ℚ → List ℚ → ℕ → ℤ → String → CohEstimate)
    (h8 : 8 ≤ nperseg) (hch : 2 ≤ a.channels.length)
    (hfilt : cohFilterOf window nperseg ratestart rateend a est ≠ []) :
    coherenceRun fname window nperseg ratestart rateend a est =
      (let e := cohEstimateOf window nperseg a est
       let filt := cohFilterOf window nperseg ratestart rateend a est
       let vals := filt.map Prod.snd
       let ident := allcloseOne e.values
       { exitCode := 0, stderr := [],
         stdout := if ident then ["The two channels are identical."] else [],
         bandEnd := some (resolveRateEnd rateend a.rate),
         estimatorInvoked := true, filtered := filt,
         isIdentical := ident,
         title := some (if ident then "Channels identical in " ++ fname
                        else "Coherence for " ++ fname),
         chartShown := true,
         minReport := some ((filt.getD (argmin vals) (0, 0)).snd,
                            (filt.getD (argmin vals) (0, 0)).fst),
         maxReport := some ((filt.getD (argmax vals) (0, 0)).snd,
                            (filt.getD (argmax vals) (0, 0)).fst) }) := by
  unfold coherenceRun
  rw [if_neg (by omega)]
  dsimp only
  rw [if_neg (by omega)]
  rw [if_neg hfilt]

lemma linspace_length (s e : ℚ) (n : ℕ) : (linspace s e n).length = n := by
  unfold linspace
  rw [List.length_map, List.length_range]

lemma linspace_getD (s e : ℚ) (n i : ℕ) (hi : i < n) :
    (linspace s e n).getD i 0 = s + (e - s) * (i : ℚ) / ((n : ℚ) - 1) := by
  unfold linspace
  rw [List.getD_eq_getElem _ _
    (by rw [List.length_map, List.length_range]; exact hi)]
  rw [List.getElem_map, List.getElem_range]

/-! ### Numeric bounds for the model-order formula -/

lemma log_128_div_125_bounds :
    (0.0237162 : ℝ) ≤ Real.log (128 / 125) ∧
      Real.log (128 / 125) ≤ (0.0237170 : ℝ) := by
  have h : |(-3 / 125 : ℝ)| < 1 := by
    rw [abs_of_nonpos (by norm_num)]
    norm_num
  have z := Real.abs_log_sub_add_sum_range_le h 3
  rw [show (1 : ℝ) - (-3 / 125) = 128 / 125 by norm_num] at z
  rw [abs_of_nonpos (by norm_num : (-3 / 125 : ℝ) ≤ 0)] at z
  simp only [Finset.sum_range_succ, Finset.sum_range_zero] at z
  norm_num at z
  rw [abs_le] at z
  constructor <;> linarith [z.1, z.2]

lemma log_ten_eq : Real.log 10 = (10 * Real.log 2 - Real.log (128 / 125)) / 3 := by
  have h1000 : Real.log 1000 = 3 * Real.log 10 := by
    rw [show (1000 : ℝ) = 10 ^ 3 by norm_num, Real.log_pow]
    norm_num
  have h1024 : Real.log 1024 = 10 * Real.log 2 := by
    rw [show (1024 : ℝ) = 2 ^ 10 by norm_num, Real.log_pow]
    norm_num
  have hdiv : Real.log (128 / 125) = Real.log 1024 - Real.log 1000 := by
    rw [← Real.log_div (by norm_num) (by norm_num)]
    norm_num
  linarith

lemma log_ten_bounds :
    (2.3025849 : ℝ) ≤ Real.log 10 ∧ Real.log 10 ≤ (2.3025853 : ℝ) := by
  have h2l := Real.log_two_gt_d9
  have h2u := Real.log_two_lt_d9
  have hl := log_128_div_125_bounds
  rw [log_ten_eq]
  constructor <;> [linarith [hl.2]; linarith [hl.1]]

/-- The model order for N = 100000 samples: `⌊200000 / (2 ln 100000)⌋ = 8685`. -/
lemma psdOrder_100000 : psdOrder 100000 = 8685 := by
  have h10 := log_ten_bounds
  have hL : Real.log ((100000 : ℕ) : ℝ) = 5 * Real.log 10 := by
    rw [show ((100000 : ℕ) : ℝ) = 10 ^ 5 by norm_num, Real.log_pow]
    norm_num
  unfold psdOrder
  rw [hL]
  have hpos : (0 : ℝ) < 2 * (5 * Real.log 10) := by nlinarith [h10.1]
  rw [Int.floor_eq_iff]
  push_cast
  constructor
  · rw [le_div_iff₀ hpos]
    nlinarith [h10.2]
  · rw [div_lt_iff₀ hpos]
    nlinarith [h10.1]

/-- The model order for N = 2 samples: `⌊4 / (2 ln 2)⌋ = ⌊2.885…⌋ = 2`. -/
lemma psdOrder_two : psdOrder 2 = 2 := by
  have h2l := Real.log_two_gt_d9
  have h2u := Real.log_two_lt_d9
  unfold psdOrder
  rw [show ((2 : ℕ) : ℝ) = 2 by norm_num]
  have hpos : (0 : ℝ) < 2 * Real.log 2 := by nlinarith
  rw [Int.floor_eq_iff]
  push_cast
  constructor
  · rw [le_div_iff₀ hpos]
    nlinarith
  · rw [div_lt_iff₀ hpos]
    nlinarith

/-! ### Claims -/

/-- C1: In both pipelines, a requested band end of 0 resolves to
`⌊sampleRate / 2⌋` and a requested band end `k > 0` resolves to `k`. -/
theorem c1_band_end_resolution (rate : ℕ) (k : ℤ) (hk : 0 < k)
    (fname window : String) (nperseg rs rend : ℤ) (hn : 8 ≤ nperseg)
    (a : AudioFrame) (est : List ℚ → List ℚ → ℕ → ℤ → String → CohEstimate)
    (rs2 rend2 : ℤ) (target : Option ℚ) (a2 : AudioFrame)
    (meter : AudioFrame → MeterValue)
    (nf : AudioFrame → MeterValue → ℚ → AudioFrame)
    (sp : ℚ → ℚ → ℚ × ℚ) :
    resolveRateEnd 0 rate = ⌊(rate : ℚ) / 2⌋ ∧
    resolveRateEnd k rate = k ∧
    (coherenceRun fname window nperseg rs rend a est).bandEnd
      = some (resolveRateEnd rend a.rate) ∧
    (psdRun rs2 rend2 target a2 meter nf sp).bandEnd
      = resolveRateEnd rend2 a2.rate := by
  refine ⟨?_, ?_, ?_, ?_⟩
  · unfold resolveRateEnd
    rw [if_pos rfl,
      show (rate : ℚ) / 2 = ((rate : ℤ) : ℚ) / ((2 : ℕ) : ℚ) by push_cast; ring,
      Rat.floor_intCast_div_natCast]
    norm_num
  · unfold resolveRateEnd
    rw [if_neg hk.ne']
  · unfold coherenceRun
    rw [if_neg (by omega)]
    dsimp only
    split
    · rfl
    · split
      · rfl
      · rfl
  · exact psdRun_bandEnd rs2 rend2 target a2 meter nf sp

theorem c1_band_end_resolution_witness :
    (0 : ℤ) < 15000 ∧ (8 : ℤ) ≤ 1024 ∧
    (resolveRateEnd 0 48000 = ⌊(48000 : ℚ) / 2⌋ ∧
     resolveRateEnd 15000 48000 = 15000 ∧
     (coherenceRun "f" "hann" 1024 0 0 ⟨[[0], [0]], 44100⟩
         (fun _ _ _ _ _ => ⟨[], []⟩)).bandEnd
       = some (resolveRateEnd 0 (44100 : ℕ)) ∧
     (psdRun 0 0 none ⟨[[0], [0]], 44100⟩ (fun _ => MeterValue.negInf)
         (fun x _ _ => x) (fun _ _ => (0, 0))).bandEnd
       = resolveRateEnd 0 (44100 : ℕ)) :=
  ⟨by decide, by decide,
    c1_band_end_resolution 48000 15000 (by decide) "f" "hann" 1024 0 0 (by decide)
      ⟨[[0], [0]], 44100⟩ (fun _ _ _ _ _ => ⟨[], []⟩) 0 0 none ⟨[[0], [0]], 44100⟩
      (fun _ => MeterValue.negInf) (fun x _ _ => x) (fun _ _ => (0, 0))⟩

/-- C3: For a decoded file with fewer than two channels, the coherence
pipeline exits with code 1 and a descriptive message on standard error
before invoking the estimator, while PSD-mode channel selection succeeds
using channel index 0: the data handed to the spectral analysis is the
`int(t*realrate)`-sample prefix of the decoded channel 0. -/
theorem c3_channel_selection (a : AudioFrame)
    (hlt : a.channels.length < 2)
    (fname window : String) (nperseg rs rend : ℤ) (hn : 8 ≤ nperseg)
    (est : List ℚ → List ℚ → ℕ → ℤ → String → CohEstimate)
    (rs2 rend2 : ℤ) (meter : AudioFrame → MeterValue)
    (nf : AudioFrame → MeterValue → ℚ → AudioFrame)
    (sp : ℚ → ℚ → ℚ × ℚ) :
    (coherenceRun fname window nperseg rs rend a est).exitCode = 1 ∧
    (coherenceRun fname window nperseg rs rend a est).stderr
      = ["Error: Audio file must have at least two channels."] ∧
    (coherenceRun fname window nperseg rs rend a est).estimatorInvoked = false ∧
    (coherenceRun fname window nperseg rs rend a est).chartShown = false ∧
    (psdRun rs2 rend2 none a meter nf sp).dataMESA
      = (a.channel 0).take (truncCount a.frameCount a.rate) ∧
    (psdRun rs2 rend2 none a meter nf sp).dataMESA <+: a.channel 0 := by
  have hcoh : coherenceRun fname window nperseg rs rend a est
      = { exitCode := 1,
          stderr := ["Error: Audio file must have at least two channels."],
          stdout := [], bandEnd := some (resolveRateEnd rend a.rate),
          estimatorInvoked := false, filtered := [], isIdentical := false,
          title := none, chartShown := false,
          minReport := none, maxReport := none } := by
    unfold coherenceRun
    rw [if_neg (by omega)]
    dsimp only
    rw [if_pos hlt]
  have hd : (psdRun rs2 rend2 none a meter nf sp).dataMESA
      = (a.channel 0).take (truncCount a.frameCount a.rate) := by
    rw [psdRun_dataMESA]
    rfl
  refine ⟨by rw [hcoh], by rw [hcoh], by rw [hcoh], by rw [hcoh], hd, ?_⟩
  rw [hd]
  exact List.take_prefix _ _

theorem c3_channel_selection_witness :
    (⟨[[1, 2]], 44100⟩ : AudioFrame).channels.length < 2 ∧
    (8 : ℤ) ≤ 1024 ∧
    ((coherenceRun "f" "hann" 1024 0 0 ⟨[[1, 2]], 44100⟩
        (fun _ _ _ _ _ => ⟨[], []⟩)).exitCode = 1 ∧
     (coherenceRun "f" "hann" 1024 0 0 ⟨[[1, 2]], 44100⟩
        (fun _ _ _ _ _ => ⟨[], []⟩)).stderr
       = ["Error: Audio file must have at least two channels."] ∧
     (coherenceRun "f" "hann" 1024 0 0 ⟨[[1, 2]], 44100⟩
        (fun _ _ _ _ _ => ⟨[], []⟩)).estimatorInvoked = false ∧
     (coherenceRun "f" "hann" 1024 0 0 ⟨[[1, 2]], 44100⟩
        (fun _ _ _ _ _ => ⟨[], []⟩)).chartShown = false ∧
     (psdRun 0 0 none ⟨[[1, 2]], 44100⟩ (fun _ => MeterValue.negInf)
        (fun x _ _ => x) (fun _ _ => (0, 0))).dataMESA
       = ((⟨[[1, 2]], 44100⟩ : AudioFrame).channel 0).take
           (truncCount (⟨[[1, 2]], 44100⟩ : AudioFrame).frameCount
             (⟨[[1, 2]], 44100⟩ : AudioFrame).rate) ∧
     (psdRun 0 0 none ⟨[[1, 2]], 44100⟩ (fun _ => MeterValue.negInf)
        (fun x _ _ => x) (fun _ _ => (0, 0))).dataMESA
       <+: (⟨[[1, 2]], 44100⟩ : AudioFrame).channel 0) :=
  ⟨by decide, by decide,
    c3_channel_selection ⟨[[1, 2]], 44100⟩ (by decide) "f" "hann" 1024 0 0
      (by decide) (fun _ _ _ _ _ => ⟨[], []⟩) 0 0 (fun _ => MeterValue.negInf)
      (fun x _ _ => x) (fun _ _ => (0, 0))⟩

/-- C9 counterexample: for a silent clip the meter reports `-inf`
(`MeterValue.negInf`); with target `-23 LUFS` the run still applies the
normalization transform and completes with exit code 0 — there is no
`NormalizationError` abort (sound_MESA.py:64-70 has no finiteness guard). -/
theorem c9_counterexample :
    (psdRun 0 0 (some (-23)) ⟨[[0, 0]], 48000⟩ (fun _ => MeterValue.negInf)
        (fun x _ _ => x) (fun _ _ => (0, 0))).transformApplied = true ∧
    (psdRun 0 0 (some (-23)) ⟨[[0, 0]], 48000⟩ (fun _ => MeterValue.negInf)
        (fun x _ _ => x) (fun _ _ => (0, 0))).exitCode = 0 := by
  constructor <;> decide

/-- C9 (amended): whenever a normalization target is supplied, the
normalization transform is applied unconditionally — also when the measured
integrated loudness is non-finite — and the loudness stage raises no error:
the run proceeds past it (and completes with exit code 0 and empty standard
error whenever the later, unrelated 1-sample order-expression crash does
not apply). -/
theorem c9_amended (rs rend : ℤ) (tgt : ℚ) (target : Option ℚ)
    (htgt : target = some tgt) (a : AudioFrame)
    (meter : AudioFrame → MeterValue)
    (nf : AudioFrame → MeterValue → ℚ → AudioFrame)
    (sp : ℚ → ℚ → ℚ × ℚ) :
    (psdRun rs rend target a meter nf sp).transformApplied = true ∧
    (psdRun rs rend target a meter nf sp).normalized = nf a (meter a) tgt ∧
    ((psdRun rs rend target a meter nf sp).dataMESA.length ≠ 1 →
      (psdRun rs rend target a meter nf sp).exitCode = 0 ∧
      (psdRun rs rend target a meter nf sp).stderr = []) := by
  subst htgt
  refine ⟨?_, ?_, ?_⟩
  · rw [psdRun_transformApplied]
    rfl
  · rw [psdRun_normalized]
    rfl
  · intro h
    rw [psdRun_dataMESA] at h
    rw [psdRun_of_ne_one rs rend _ a meter nf sp h]
    exact ⟨rfl, rfl⟩

theorem c9_amended_witness :
    (some (-23 : ℚ) = some (-23 : ℚ)) ∧
    ((psdRun 0 0 (some (-23)) ⟨[[0, 1]], 48000⟩ (fun _ => MeterValue.negInf)
        (fun x _ _ => x) (fun _ _ => (0, 0))).transformApplied = true ∧
     (psdRun 0 0 (some (-23)) ⟨[[0, 1]], 48000⟩ (fun _ => MeterValue.negInf)
        (fun x _ _ => x) (fun _ _ => (0, 0))).normalized
       = (fun (x : AudioFrame) (_ : MeterValue) (_ : ℚ) => x) ⟨[[0, 1]], 48000⟩
           ((fun _ => MeterValue.negInf) (⟨[[0, 1]], 48000⟩ : AudioFrame)) (-23) ∧
     ((psdRun 0 0 (some (-23)) ⟨[[0, 1]], 48000⟩ (fun _ => MeterValue.negInf)
        (fun x _ _ => x) (fun _ _ => (0, 0))).dataMESA.length ≠ 1 →
      (psdRun 0 0 (some (-23)) ⟨[[0, 1]], 48000⟩ (fun _ => MeterValue.negInf)
         (fun x _ _ => x) (fun _ _ => (0, 0))).exitCode = 0 ∧
      (psdRun 0 0 (some (-23)) ⟨[[0, 1]], 48000⟩ (fun _ => MeterValue.negInf)
         (fun x _ _ => x) (fun _ _ => (0, 0))).stderr = [])) :=
  ⟨rfl, c9_amended 0 0 (-23) (some (-23)) rfl ⟨[[0, 1]], 48000⟩
    (fun _ => MeterValue.negInf) (fun x _ _ => x) (fun _ _ => (0, 0))⟩

/-- C10 counterexample: for a 15-sample mono file at 44100 Hz the double
evaluation of the slice bound gives `int((15/44100)*44100) =
int(14.999999999999998) = 14`, so without a normalization target the
samples handed to the spectral analysis are NOT the decoded channel 0
unchanged: the final sample is dropped. -/
theorem c10_counterexample :
    truncCount 15 44100 = 14 ∧
    (psdRun 0 0 none frame15 negInfMeter idNf zeroSp).dataMESA.length = 14 ∧
    (frame15.channel 0).length = 15 ∧
    (psdRun 0 0 none frame15 negInfMeter idNf zeroSp).dataMESA
      ≠ frame15.channel 0 := by
  refine ⟨by decide, by decide, by decide, by decide⟩

/-- C10 (amended): in PSD mode without a normalization target, the loudness
stage performs no transformation — the decoded frame is passed through
unchanged — and the spectral analysis receives the `int(t*realrate)`-sample
prefix of the decoded channel 0, which, due to the double-precision
evaluation of the slice bound, can drop the final sample (e.g. 15 samples
at 44100 Hz slice to 14) and otherwise is channel 0 in full (e.g. 44100
samples at 44100 Hz). -/
theorem c10_no_normalization_passthrough (a : AudioFrame)
    (rs rend : ℤ) (meter : AudioFrame → MeterValue)
    (nf : AudioFrame → MeterValue → ℚ → AudioFrame)
    (sp : ℚ → ℚ → ℚ × ℚ) :
    (psdRun rs rend none a meter nf sp).transformApplied = false ∧
    (psdRun rs rend none a meter nf sp).normalized = a ∧
    (psdRun rs rend none a meter nf sp).dataMESA
      = (a.channel 0).take (truncCount a.frameCount a.rate) ∧
    (psdRun rs rend none a meter nf sp).dataMESA <+: a.channel 0 ∧
    truncCount 15 44100 = 14 ∧
    truncCount 44100 44100 = 44100 := by
  have hd : (psdRun rs rend none a meter nf sp).dataMESA
      = (a.channel 0).take (truncCount a.frameCount a.rate) := by
    rw [psdRun_dataMESA]
    rfl
  have htf : (psdRun rs rend none a meter nf sp).transformApplied = false := by
    rw [psdRun_transformApplied]
    rfl
  have hnm : (psdRun rs rend none a meter nf sp).normalized = a := by
    rw [psdRun_normalized]
    rfl
  exact ⟨htf, hnm, hd, hd ▸ List.take_prefix _ _, by decide, by decide⟩

/-- C4 counterexample: an inverted band (`ratestart = 100 ≥ 50 = rateend`)
is not fatal in the PSD pipeline — the run completes with exit code 0 and
produces a chart, contradicting the claim that an inverted band aborts with
exit code 1 before any heavy computation and no chart is produced. -/
theorem c4_counterexample :
    (psdRun 100 50 none ⟨[[0, 0]], 48000⟩ (fun _ => MeterValue.negInf)
        (fun x _ _ => x) (fun _ _ => (0, 0))).chartShown = true ∧
    (psdRun 100 50 none ⟨[[0, 0]], 48000⟩ (fun _ => MeterValue.negInf)
        (fun x _ _ => x) (fun _ _ => (0, 0))).exitCode = 0 ∧
    (psdRun 100 50 none ⟨[[0, 0]], 48000⟩ (fun _ => MeterValue.negInf)
        (fun x _ _ => x) (fun _ _ => (0, 0))).solverInvoked = true := by
  refine ⟨by decide, by decide, by decide⟩

/-- C4 (amended): a coherence segment length below 8 is fatal — detected
before any heavy computation, exit code 1 with a descriptive message printed
to standard output (not standard error), and no chart.  An inverted band
(start ≥ end) is not detected: whenever the PSD pipeline's analyzed channel
does not have exactly one sample (its only crash, at the order expression,
is independent of the band), the run proceeds to produce a chart with exit
code 0; and the coherence pipeline invokes the estimator (the heavy
computation) before any band handling. -/
theorem c4_amended (fname window : String) (nperseg rs rend : ℤ)
    (hlt : nperseg < 8) (a : AudioFrame)
    (est : List ℚ → List ℚ → ℕ → ℤ → String → CohEstimate)
    (nperseg2 : ℤ) (h8 : 8 ≤ nperseg2) (hch : 2 ≤ a.channels.length)
    (rs3 rend3 : ℤ) (target : Option ℚ) (a3 : AudioFrame)
    (meter : AudioFrame → MeterValue)
    (nf : AudioFrame → MeterValue → ℚ → AudioFrame)
    (sp : ℚ → ℚ → ℚ × ℚ)
    (hlen : (psdRun rs3 rend3 target a3 meter nf sp).dataMESA.length ≠ 1) :
    (coherenceRun fname window nperseg rs rend a est).exitCode = 1 ∧
    (coherenceRun fname window nperseg rs rend a est).estimatorInvoked = false ∧
    (coherenceRun fname window nperseg rs rend a est).chartShown = false ∧
    (coherenceRun fname window nperseg rs rend a est).stdout
      = ["nperseg should be >= 8"] ∧
    (psdRun rs3 rend3 target a3 meter nf sp).chartShown = true ∧
    (psdRun rs3 rend3 target a3 meter nf sp).exitCode = 0 ∧
    (coherenceRun fname window nperseg2 rs rend a est).estimatorInvoked = true := by
  have hc : coherenceRun fname window nperseg rs rend a est
      = { exitCode := 1, stderr := [], stdout := ["nperseg should be >= 8"],
          bandEnd := none, estimatorInvoked := false, filtered := [],
          isIdentical := false, title := none, chartShown := false,
          minReport := none, maxReport := none } := by
    unfold coherenceRun
    rw [if_pos hlt]
  rw [psdRun_dataMESA] at hlen
  have hp := psdRun_of_ne_one rs3 rend3 target a3 meter nf sp hlen
  refine ⟨by rw [hc], by rw [hc], by rw [hc], by rw [hc],
    by rw [hp], by rw [hp], ?_⟩
  unfold coherenceRun
  rw [if_neg (by omega)]
  dsimp only
  rw [if_neg (by omega)]
  split
  · rfl
  · rfl

theorem c4_amended_witness :
    (4 : ℤ) < 8 ∧ (8 : ℤ) ≤ 1024 ∧
    2 ≤ (⟨[[1], [2]], 44100⟩ : AudioFrame).channels.length ∧
    ((coherenceRun "f" "hann" 4 0 0 ⟨[[1], [2]], 44100⟩
        (fun _ _ _ _ _ => ⟨[0], [1]⟩)).exitCode = 1 ∧
     (coherenceRun "f" "hann" 4 0 0 ⟨[[1], [2]], 44100⟩
        (fun _ _ _ _ _ => ⟨[0], [1]⟩)).estimatorInvoked = false ∧
     (coherenceRun "f" "hann" 4 0 0 ⟨[[1], [2]], 44100⟩
        (fun _ _ _ _ _ => ⟨[0], [1]⟩)).chartShown = false ∧
     (coherenceRun "f" "hann" 4 0 0 ⟨[[1], [2]], 44100⟩
        (fun _ _ _ _ _ => ⟨[0], [1]⟩)).stdout = ["nperseg should be >= 8"] ∧
     (psdRun 100 50 none monoFrame negInfMeter idNf zeroSp).chartShown = true ∧
     (psdRun 100 50 none monoFrame negInfMeter idNf zeroSp).exitCode = 0 ∧
     (coherenceRun "f" "hann" 1024 0 0 ⟨[[1], [2]], 44100⟩
        (fun _ _ _ _ _ => ⟨[0], [1]⟩)).estimatorInvoked = true) :=
  ⟨by decide, by decide, by decide,
    c4_amended "f" "hann" 4 0 0 (by decide) ⟨[[1], [2]], 44100⟩
      (fun _ _ _ _ _ => ⟨[0], [1]⟩) 1024 (by decide) (by decide) 100 50 none
      monoFrame negInfMeter idNf zeroSp (by decide)⟩

/-- C6: In both pipelines, extremum extraction returns the global minimum
and global maximum of the value sequence, ties broken by first occurrence in
frequency order: with a strictly increasing frequency grid, whenever two
points share the extremal value, the reported extremum frequency is the
lower of the two frequencies.  The coherence pipeline and the PSD pipeline
both locate extrema via `argmin`/`argmax` of the value sequence. -/
theorem c6_extremum_tie_break (fs vs : List ℚ) (hne : vs ≠ [])
    (hlen : vs.length ≤ fs.length)
    (hmono : ∀ q, q < fs.length → ∀ p, p < q → fs.getD p 0 < fs.getD q 0)
    (i j : ℕ) (hi : i < vs.length) (hj : j < vs.length)
    (hie : vs.getD i 0 = vs.getD (argmax vs) 0)
    (hje : vs.getD j 0 = vs.getD (argmax vs) 0)
    (i2 j2 : ℕ) (hi2 : i2 < vs.length) (hj2 : j2 < vs.length)
    (hie2 : vs.getD i2 0 = vs.getD (argmin vs) 0)
    (hje2 : vs.getD j2 0 = vs.getD (argmin vs) 0)
    (fname window : String) (nperseg rs rend : ℤ) (a : AudioFrame)
    (est : List ℚ → List ℚ → ℕ → ℤ → String → CohEstimate)
    (h8 : 8 ≤ nperseg) (hch : 2 ≤ a.channels.length)
    (hfilt : cohFilterOf window nperseg rs rend a est ≠ [])
    (rs2 rend2 : ℤ) (target : Option ℚ) (a2 : AudioFrame)
    (meter : AudioFrame → MeterValue)
    (nf : AudioFrame → MeterValue → ℚ → AudioFrame)
    (sp : ℚ → ℚ → ℚ × ℚ) :
    (∀ v ∈ vs, v ≤ vs.getD (argmax vs) 0) ∧
    (∀ v ∈ vs, vs.getD (argmin vs) 0 ≤ v) ∧
    fs.getD (argmax vs) 0 ≤ min (fs.getD i 0) (fs.getD j 0) ∧
    fs.getD (argmin vs) 0 ≤ min (fs.getD i2 0) (fs.getD j2 0) ∧
    (coherenceRun fname window nperseg rs rend a est).maxReport =
      some (((cohFilterOf window nperseg rs rend a est).getD
               (argmax ((cohFilterOf window nperseg rs rend a est).map Prod.snd))
               (0, 0)).snd,
            ((cohFilterOf window nperseg rs rend a est).getD
               (argmax ((cohFilterOf window nperseg rs rend a est).map Prod.snd))
               (0, 0)).fst) ∧
    (coherenceRun fname window nperseg rs rend a est).minReport =
      some (((cohFilterOf window nperseg rs rend a est).getD
               (argmin ((cohFilterOf window nperseg rs rend a est).map Prod.snd))
               (0, 0)).snd,
            ((cohFilterOf window nperseg rs rend a est).getD
               (argmin ((cohFilterOf window nperseg rs rend a est).map Prod.snd))
               (0, 0)).fst) ∧
    (psdRun rs2 rend2 target a2 meter nf sp).maxIdx
      = argmax (psdRun rs2 rend2 target a2 meter nf sp).psdReal ∧
    (psdRun rs2 rend2 target a2 meter nf sp).minIdx
      = argmin (psdRun rs2 rend2 target a2 meter nf sp).psdReal := by
  have hmax := argmax_spec vs hne
  have hmin := argmin_spec vs hne
  have keyMax : ∀ k, k < vs.length → vs.getD k 0 = vs.getD (argmax vs) 0 →
      fs.getD (argmax vs) 0 ≤ fs.getD k 0 := by
    intro k hk hkv
    rcases eq_or_lt_of_le (hmax.2.2 k hk hkv) with h | h
    · rw [h]
    · exact le_of_lt (hmono k (lt_of_lt_of_le hk hlen) _ h)
  have keyMin : ∀ k, k < vs.length → vs.getD k 0 = vs.getD (argmin vs) 0 →
      fs.getD (argmin vs) 0 ≤ fs.getD k 0 := by
    intro k hk hkv
    rcases eq_or_lt_of_le (hmin.2.2 k hk hkv) with h | h
    · rw [h]
    · exact le_of_lt (hmono k (lt_of_lt_of_le hk hlen) _ h)
  refine ⟨hmax.2.1, hmin.2.1,
    le_min (keyMax i hi hie) (keyMax j hj hje),
    le_min (keyMin i2 hi2 hie2) (keyMin j2 hj2 hje2), ?_, ?_, ?_, ?_⟩
  · rw [coherenceRun_success fname window nperseg rs rend a est h8 hch hfilt]
  · rw [coherenceRun_success fname window nperseg rs rend a est h8 hch hfilt]
  · rw [psdRun_maxIdx, psdRun_psdReal]
  · rw [psdRun_minIdx, psdRun_psdReal]

theorem c6_extremum_tie_break_witness :
    (([5, 7, 7] : List ℚ) ≠ []) ∧
    ([5, 7, 7] : List ℚ).length ≤ ([10, 20, 30] : List ℚ).length ∧
    (∀ q, q < ([10, 20, 30] : List ℚ).length → ∀ p, p < q →
      ([10, 20, 30] : List ℚ).getD p 0 < ([10, 20, 30] : List ℚ).getD q 0) ∧
    (1 < ([5, 7, 7] : List ℚ).length ∧ 2 < ([5, 7, 7] : List ℚ).length ∧
     ([5, 7, 7] : List ℚ).getD 1 0 = ([5, 7, 7] : List ℚ).getD (argmax [5, 7, 7]) 0 ∧
     ([5, 7, 7] : List ℚ).getD 2 0 = ([5, 7, 7] : List ℚ).getD (argmax [5, 7, 7]) 0 ∧
     0 < ([5, 7, 7] : List ℚ).length ∧
     ([5, 7, 7] : List ℚ).getD 0 0 = ([5, 7, 7] : List ℚ).getD (argmin [5, 7, 7]) 0) ∧
    (8 : ℤ) ≤ 1024 ∧ 2 ≤ stereoFrame.channels.length ∧
    cohFilterOf "hann" 1024 0 0 stereoFrame constEst ≠ [] ∧
    ((∀ v ∈ ([5, 7, 7] : List ℚ), v ≤ ([5, 7, 7] : List ℚ).getD (argmax [5, 7, 7]) 0) ∧
     (∀ v ∈ ([5, 7, 7] : List ℚ), ([5, 7, 7] : List ℚ).getD (argmin [5, 7, 7]) 0 ≤ v) ∧
     ([10, 20, 30] : List ℚ).getD (argmax [5, 7, 7]) 0 ≤
       min (([10, 20, 30] : List ℚ).getD 1 0) (([10, 20, 30] : List ℚ).getD 2 0) ∧
     ([10, 20, 30] : List ℚ).getD (argmin [5, 7, 7]) 0 ≤
       min (([10, 20, 30] : List ℚ).getD 0 0) (([10, 20, 30] : List ℚ).getD 0 0) ∧
     (coherenceRun "f" "hann" 1024 0 0 stereoFrame constEst).maxReport =
       some (((cohFilterOf "hann" 1024 0 0 stereoFrame constEst).getD
                (argmax ((cohFilterOf "hann" 1024 0 0 stereoFrame constEst).map Prod.snd))
                (0, 0)).snd,
             ((cohFilterOf "hann" 1024 0 0 stereoFrame constEst).getD
                (argmax ((cohFilterOf "hann" 1024 0 0 stereoFrame constEst).map Prod.snd))
                (0, 0)).fst) ∧
     (coherenceRun "f" "hann" 1024 0 0 stereoFrame constEst).minReport =
       some (((cohFilterOf "hann" 1024 0 0 stereoFrame constEst).getD
                (argmin ((cohFilterOf "hann" 1024 0 0 stereoFrame constEst).map Prod.snd))
                (0, 0)).snd,
             ((cohFilterOf "hann" 1024 0 0 stereoFrame constEst).getD
                (argmin ((cohFilterOf "hann" 1024 0 0 stereoFrame constEst).map Prod.snd))
                (0, 0)).fst) ∧
     (psdRun 0 0 none stereoFrame negInfMeter idNf zeroSp).maxIdx
       = argmax (psdRun 0 0 none stereoFrame negInfMeter idNf zeroSp).psdReal ∧
     (psdRun 0 0 none stereoFrame negInfMeter idNf zeroSp).minIdx
       = argmin (psdRun 0 0 none stereoFrame negInfMeter idNf zeroSp).psdReal) :=
  ⟨by decide, by decide, by decide,
   ⟨by decide, by decide, by decide, by decide, by decide, by decide⟩,
   by decide, by decide, by decide,
   c6_extremum_tie_break [10, 20, 30] [5, 7, 7] (by decide) (by decide) (by decide)
     1 2 (by decide) (by decide) (by decide) (by decide)
     0 0 (by decide) (by decide) (by decide) (by decide)
     "f" "hann" 1024 0 0 stereoFrame constEst (by decide) (by decide) (by decide)
     0 0 none stereoFrame negInfMeter idNf zeroSp⟩

/-- C5: The PSD pipeline samples the fitted model's spectrum at exactly
`nPoints = 1,000,000` frequencies uniformly spaced across the resolved band
`[ratestart, rateend]` — independent of the input length — and keeps only
the real part (first component) of each complex PSD value. -/
theorem c5_psd_grid (rs rend : ℤ) (target : Option ℚ) (a : AudioFrame)
    (meter : AudioFrame → MeterValue)
    (nf : AudioFrame → MeterValue → ℚ → AudioFrame)
    (sp : ℚ → ℚ → ℚ × ℚ) (i : ℕ) (hi : i + 1 < nPoints) :
    (psdRun rs rend target a meter nf sp).grid.length = nPoints ∧
    nPoints = 1000000 ∧
    (psdRun rs rend target a meter nf sp).grid.getD i 0
      = (rs : ℚ) + (((resolveRateEnd rend a.rate : ℤ) : ℚ) - (rs : ℚ)) * (i : ℚ) / 999999 ∧
    (psdRun rs rend target a meter nf sp).grid.getD (i + 1) 0
        - (psdRun rs rend target a meter nf sp).grid.getD i 0
      = (((resolveRateEnd rend a.rate : ℤ) : ℚ) - (rs : ℚ)) / 999999 ∧
    (psdRun rs rend target a meter nf sp).grid.getD 0 0 = (rs : ℚ) ∧
    (psdRun rs rend target a meter nf sp).grid.getD 999999 0
      = ((resolveRateEnd rend a.rate : ℤ) : ℚ) ∧
    (psdRun rs rend target a meter nf sp).psdReal
      = (psdRun rs rend target a meter nf sp).grid.map
          (fun fr => (sp (1 / (a.rate : ℚ)) fr).1) := by
  have hg : (psdRun rs rend target a meter nf sp).grid
      = linspace (rs : ℚ) ((resolveRateEnd rend a.rate : ℤ) : ℚ) nPoints := by
    rw [psdRun_grid]
    unfold gridOf
    rfl
  have hnp : ((nPoints : ℕ) : ℚ) - 1 = 999999 := by
    norm_num [nPoints]
  refine ⟨?_, rfl, ?_, ?_, ?_, ?_, ?_⟩
  · rw [hg, linspace_length]
  · rw [hg, linspace_getD _ _ _ _ (by omega), hnp]
  · rw [hg, linspace_getD _ _ _ _ hi, linspace_getD _ _ _ _ (by omega), hnp]
    push_cast
    ring
  · rw [hg, linspace_getD _ _ _ _ (by simp [nPoints]), hnp]
    norm_num
  · rw [hg, linspace_getD _ _ _ _ (by simp [nPoints]), hnp]
    have h999 : (999999 : ℚ) ≠ 0 := by norm_num
    field_simp
  · rw [psdRun_psdReal, psdRun_grid]
    unfold psdRealOf
    rfl

theorem c5_psd_grid_witness :
    0 + 1 < nPoints ∧
    ((psdRun 0 0 none stereoFrame negInfMeter idNf zeroSp).grid.length = nPoints ∧
     nPoints = 1000000 ∧
     (psdRun 0 0 none stereoFrame negInfMeter idNf zeroSp).grid.getD 0 0
       = ((0 : ℤ) : ℚ) + (((resolveRateEnd 0 stereoFrame.rate : ℤ) : ℚ) - ((0 : ℤ) : ℚ))
           * ((0 : ℕ) : ℚ) / 999999 ∧
     (psdRun 0 0 none stereoFrame negInfMeter idNf zeroSp).grid.getD (0 + 1) 0
         - (psdRun 0 0 none stereoFrame negInfMeter idNf zeroSp).grid.getD 0 0
       = (((resolveRateEnd 0 stereoFrame.rate : ℤ) : ℚ) - ((0 : ℤ) : ℚ)) / 999999 ∧
     (psdRun 0 0 none stereoFrame negInfMeter idNf zeroSp).grid.getD 0 0 = ((0 : ℤ) : ℚ) ∧
     (psdRun 0 0 none stereoFrame negInfMeter idNf zeroSp).grid.getD 999999 0
       = ((resolveRateEnd 0 stereoFrame.rate : ℤ) : ℚ) ∧
     (psdRun 0 0 none stereoFrame negInfMeter idNf zeroSp).psdReal
       = (psdRun 0 0 none stereoFrame negInfMeter idNf zeroSp).grid.map
           (fun fr => (zeroSp (1 / (stereoFrame.rate : ℚ)) fr).1)) :=
  ⟨by decide,
   c5_psd_grid 0 0 none stereoFrame negInfMeter idNf zeroSp 0 (by decide)⟩

/-- C7: The coherence pipeline flags the two channels as identical exactly
when every coherence value of the entire unfiltered grid is within numpy's
`allclose` tolerance of 1.0; when flagged, the report states the channels
are identical and the default plot title is overridden.  The band filter
preceding extremum extraction retains exactly the pairs with
`ratestart ≤ frequency ≤ rateend`, inclusive at both ends. -/
theorem c7_identical_flag_and_band_filter (fname window : String)
    (nperseg rs rend : ℤ) (a : AudioFrame)
    (est : List ℚ → List ℚ → ℕ → ℤ → String → CohEstimate)
    (h8 : 8 ≤ nperseg) (hch : 2 ≤ a.channels.length)
    (hfilt : cohFilterOf window nperseg rs rend a est ≠ []) :
    ((coherenceRun fname window nperseg rs rend a est).isIdentical = true ↔
      ∀ v ∈ (cohEstimateOf window nperseg a est).values,
        |v - 1| ≤ 1 / 10 ^ 8 + 1 / 10 ^ 5 * |(1 : ℚ)|) ∧
    ((coherenceRun fname window nperseg rs rend a est).isIdentical = true →
      (coherenceRun fname window nperseg rs rend a est).stdout
          = ["The two channels are identical."] ∧
      (coherenceRun fname window nperseg rs rend a est).title
          = some ("Channels identical in " ++ fname)) ∧
    ((coherenceRun fname window nperseg rs rend a est).isIdentical = false →
      (coherenceRun fname window nperseg rs rend a est).title
          = some ("Coherence for " ++ fname)) ∧
    (∀ p : ℚ × ℚ, p ∈ (coherenceRun fname window nperseg rs rend a est).filtered ↔
      p ∈ (cohEstimateOf window nperseg a est).freqs.zip
            (cohEstimateOf window nperseg a est).values ∧
        (rs : ℚ) ≤ p.1 ∧ p.1 ≤ ((resolveRateEnd rend a.rate : ℤ) : ℚ)) := by
  rw [coherenceRun_success fname window nperseg rs rend a est h8 hch hfilt]
  dsimp only
  refine ⟨?_, ?_, ?_, ?_⟩
  · simp [allcloseOne, List.all_eq_true]
  · intro h
    rw [h]
    exact ⟨if_pos rfl, by rw [if_pos rfl]⟩
  · intro h
    rw [h]
    exact congrArg some (if_neg (by simp))
  · intro p
    simp [cohFilterOf, List.mem_filter]

theorem c7_identical_flag_and_band_filter_witness :
    (8 : ℤ) ≤ 1024 ∧ 2 ≤ stereoFrame.channels.length ∧
    cohFilterOf "hann" 1024 0 0 stereoFrame constEst ≠ [] ∧
    (((coherenceRun "f" "hann" 1024 0 0 stereoFrame constEst).isIdentical = true ↔
       ∀ v ∈ (cohEstimateOf "hann" 1024 stereoFrame constEst).values,
         |v - 1| ≤ 1 / 10 ^ 8 + 1 / 10 ^ 5 * |(1 : ℚ)|) ∧
     ((coherenceRun "f" "hann" 1024 0 0 stereoFrame constEst).isIdentical = true →
       (coherenceRun "f" "hann" 1024 0 0 stereoFrame constEst).stdout
           = ["The two channels are identical."] ∧
       (coherenceRun "f" "hann" 1024 0 0 stereoFrame constEst).title
           = some ("Channels identical in " ++ "f")) ∧
     ((coherenceRun "f" "hann" 1024 0 0 stereoFrame constEst).isIdentical = false →
       (coherenceRun "f" "hann" 1024 0 0 stereoFrame constEst).title
           = some ("Coherence for " ++ "f")) ∧
     (∀ p : ℚ × ℚ, p ∈ (coherenceRun "f" "hann" 1024 0 0 stereoFrame constEst).filtered ↔
       p ∈ (cohEstimateOf "hann" 1024 stereoFrame constEst).freqs.zip
             (cohEstimateOf "hann" 1024 stereoFrame constEst).values ∧
         ((0 : ℤ) : ℚ) ≤ p.1 ∧ p.1 ≤ ((resolveRateEnd 0 stereoFrame.rate : ℤ) : ℚ))) :=
  ⟨by decide, by decide, by decide,
   c7_identical_flag_and_band_filter "f" "hann" 1024 0 0 stereoFrame constEst
     (by decide) (by decide) (by decide)⟩

/-- C2 counterexample: for N = 100000 samples the model order computed by
sound_MESA.py:82-83 is `⌊200000 / (2 ln 100000)⌋ = ⌊8685.889…⌋ = 8685`,
not 8683 as the claim states. -/
theorem c2_counterexample : psdOrder 100000 ≠ 8683 := by
  rw [psdOrder_100000]
  decide

/-- C2 (amended): the PSD model order is computed deterministically as
`⌊2·N / (2·ln N)⌋` from the selected channel's sample count N — the order
handed to the solver is exactly `psdOrder` of the analyzed data's length —
and for N = 100000 the order equals 8685. -/
theorem c2_model_order (rs rend : ℤ) (target : Option ℚ) (a : AudioFrame)
    (meter : AudioFrame → MeterValue)
    (nf : AudioFrame → MeterValue → ℚ → AudioFrame)
    (sp : ℚ → ℚ → ℚ × ℚ) :
    psdOrder 100000 = 8685 ∧
    (psdRun rs rend target a meter nf sp).solveOrder
      = psdOrder (psdRun rs rend target a meter nf sp).dataMESA.length := by
  refine ⟨psdOrder_100000, ?_⟩
  rw [psdRun_solveOrder, psdRun_dataMESA]

/-- C8 counterexample: with a 2-sample channel (N = 2 < 3) order resolution
does not fail with an error: the order evaluates to 2 and the pipeline
proceeds to invoke the spectral solver. -/
theorem c8_counterexample :
    (psdRun 0 0 none monoFrame negInfMeter idNf zeroSp).dataMESA.length = 2 ∧
    (psdRun 0 0 none monoFrame negInfMeter idNf zeroSp).solverInvoked = true ∧
    (psdRun 0 0 none monoFrame negInfMeter idNf zeroSp).solveOrder = 2 := by
  have hlen : (psdRun 0 0 none monoFrame negInfMeter idNf zeroSp).dataMESA.length
      = 2 := by decide
  have hord : (psdRun 0 0 none monoFrame negInfMeter idNf zeroSp).solveOrder
      = psdOrder (psdRun 0 0 none monoFrame negInfMeter idNf zeroSp).dataMESA.length := by
    rw [psdRun_solveOrder, psdRun_dataMESA]
  refine ⟨hlen, by decide, ?_⟩
  rw [hord, hlen, psdOrder_two]

/-- C8 (amended): model-order resolution has no `N < 3` guard and never
raises a `DegenerateSignalError`.  Whenever the analyzed channel does not
have exactly one sample, the pipeline proceeds to the spectral solver — in
particular for N = 2, with the computed order `⌊4 / (2 ln 2)⌋ = 2`.  When
the channel has exactly one sample, the order expression itself crashes the
run (uncaught `OverflowError` from `int(inf)`, exit code 1, traceback on
standard error, no solver invocation, no chart). -/
theorem c8_no_short_signal_guard (rs rend : ℤ) (target : Option ℚ)
    (a : AudioFrame) (meter : AudioFrame → MeterValue)
    (nf : AudioFrame → MeterValue → ℚ → AudioFrame)
    (sp : ℚ → ℚ → ℚ × ℚ)
    (h2 : (psdRun rs rend target a meter nf sp).dataMESA.length ≠ 1)
    (rsB rendB : ℤ) (targetB : Option ℚ) (b : AudioFrame)
    (meterB : AudioFrame → MeterValue)
    (nfB : AudioFrame → MeterValue → ℚ → AudioFrame)
    (spB : ℚ → ℚ → ℚ × ℚ)
    (h1 : (psdRun rsB rendB targetB b meterB nfB spB).dataMESA.length = 1) :
    psdOrder 2 = 2 ∧
    (psdRun rs rend target a meter nf sp).solverInvoked = true ∧
    (psdRun rs rend target a meter nf sp).exitCode = 0 ∧
    (psdRun rsB rendB targetB b meterB nfB spB).exitCode = 1 ∧
    (psdRun rsB rendB targetB b meterB nfB spB).solverInvoked = false ∧
    (psdRun rsB rendB targetB b meterB nfB spB).chartShown = false ∧
    (psdRun rsB rendB targetB b meterB nfB spB).stderr
      = ["OverflowError: cannot convert float infinity to integer"] := by
  rw [psdRun_dataMESA] at h2 h1
  have hp := psdRun_of_ne_one rs rend target a meter nf sp h2
  have hq := psdRun_of_len_one rsB rendB targetB b meterB nfB spB h1
  exact ⟨psdOrder_two, by rw [hp], by rw [hp], hq.1, hq.2.1, hq.2.2.1, hq.2.2.2⟩

theorem c8_no_short_signal_guard_witness :
    (psdRun 0 0 none monoFrame negInfMeter idNf zeroSp).dataMESA.length ≠ 1 ∧
    (psdRun 0 0 none mono1 negInfMeter idNf zeroSp).dataMESA.length = 1 ∧
    (psdOrder 2 = 2 ∧
     (psdRun 0 0 none monoFrame negInfMeter idNf zeroSp).solverInvoked = true ∧
     (psdRun 0 0 none monoFrame negInfMeter idNf zeroSp).exitCode = 0 ∧
     (psdRun 0 0 none mono1 negInfMeter idNf zeroSp).exitCode = 1 ∧
     (psdRun 0 0 none mono1 negInfMeter idNf zeroSp).solverInvoked = false ∧
     (psdRun 0 0 none mono1 negInfMeter idNf zeroSp).chartShown = false ∧
     (psdRun 0 0 none mono1 negInfMeter idNf zeroSp).stderr
       = ["OverflowError: cannot convert float infinity to integer"]) :=
  ⟨by decide, by decide,
   c8_no_short_signal_guard 0 0 none monoFrame negInfMeter idNf zeroSp (by decide)
     0 0 none mono1 negInfMeter idNf zeroSp (by decide)⟩

end SoundMESA
